import Mathlib

/-!
Verification of the dino CRUD service (tide + sqlx + Postgres).

The repository has two handler layers over the same `dinos` table:
* `src/main.rs`, `impl RestEntity`: create / list / get / update / delete,
  each building a `tide::Response`; database errors propagate through `?`,
  which tide's blanket `From` impl converts to a status-500 error.
* `src/handlers/dino.rs`: create / list / get / update / delete returning
  the raw rows; every database error is mapped by
  `.map_err(|e| Error::new(409, e))` to a status-409 tide error.

The database itself is embedded as a list of rows plus an availability
flag; each SQL statement of the source is given its standard semantics
over that table.
-/

/-- `uuid::Uuid` values, abstracted to their 128-bit numeric value. -/
abbrev Uuid := Nat

/-- Hex digit value, as accepted by the uuid crate's string adapter. -/
def hexVal? (c : Char) : Option Nat :=
  if '0' ≤ c ∧ c ≤ '9' then some (c.toNat - Char.toNat '0')
  else if 'a' ≤ c ∧ c ≤ 'f' then some (c.toNat - Char.toNat 'a' + 10)
  else if 'A' ≤ c ∧ c ≤ 'F' then some (c.toNat - Char.toNat 'A' + 10)
  else none

/-- Big-endian accumulation of a hex digit string; `none` on a non-hex char. -/
def hexNat? (cs : List Char) : Option Nat :=
  cs.foldl
    (fun acc c =>
      match acc, hexVal? c with
      | some a, some v => some (a * 16 + v)
      | _, _ => none)
    (some 0)

/-- The characters of the urn marker accepted by `Uuid::parse_str`. -/
def urnChars : List Char := ['u', 'r', 'n', ':', 'u', 'u', 'i', 'd', ':']

/-- Hyphenated uuid form: 36 chars, hyphens exactly at positions 8, 13, 18, 23,
hex digits elsewhere. -/
def parseHyphenated (cs : List Char) : Option Nat :=
  if cs.length = 36 ∧
      cs.enum.all
        (fun p => (p.2 == '-') = decide (p.1 = 8 ∨ p.1 = 13 ∨ p.1 = 18 ∨ p.1 = 23)) then
    hexNat? (cs.filter (fun c => !(c == '-')))
  else none

/-- Model of `uuid::Uuid::parse_str` (external crate, version of the source's
lockfile era): the urn marker is recognised only when the whole string is 45
characters, so its body must be the hyphenated 36-char form; otherwise the
string itself must be the simple 32-hex form or the hyphenated 36-char form.
Anything else — including a 41-char urn marker followed by 32 hex digits — is
a parse error. -/
def Uuid.parseStr (s : String) : Option Uuid :=
  let cs := s.data
  let cs := if cs.length = 45 ∧ cs.take 9 = urnChars then cs.drop 9 else cs
  if cs.length = 32 then hexNat? cs
  else parseHyphenated cs

/-- The `Dino` struct of `src/main.rs`: optional id, name, weight, diet. -/
structure Dino where
  id : Option Uuid
  name : String
  weight : Int
  diet : String
deriving DecidableEq, Repr

/-- The rows of the `dinos` table, in physical order. -/
abbrev Table := List Dino

/-- Errors surfaced by the database driver to the Rust code: a unique
constraint violation on insert, or an I/O / connection failure. -/
inductive DbError where
  | uniqueViolation
  | unavailable
deriving DecidableEq, Repr

/-- Modelled from the spec: the schema of the `dinos` table is not in the
repository; per the spec it has columns `id` (unique key), `name`, `weight`,
`diet`.  Standard SQL semantics of the source's statement
`INSERT INTO dinos (id, name, weight, diet) VALUES ($1, $2, $3, $4)
returning id, name, weight, diet`: the bound values are stored as given —
an explicitly bound NULL `id` is stored as NULL, since a column default
never applies to an explicitly supplied value — and the unique constraint
rejects a non-NULL `id` equal to a live row's `id` (NULLs are distinct). -/
def sqlInsert (t : Table) (d : Dino) : Except DbError (Table × Dino) :=
  match d.id with
  | some u =>
      if t.any (fun r => r.id == some u) then .error .uniqueViolation
      else .ok (t ++ [d], d)
  | none => .ok (t ++ [d], d)

/-- `SELECT id, name, weight, diet from dinos`: every row. -/
def sqlSelectAll (t : Table) : List Dino := t

/-- `SELECT id, name, weight, diet from dinos WHERE id = $1` with
`fetch_optional`: the first row whose `id` equals the bound (non-NULL)
uuid, if any. -/
def sqlSelectById (t : Table) (u : Uuid) : Option Dino :=
  t.find? (fun r => r.id == some u)

/-- Effect of `UPDATE dinos SET name = $2, weight = $3, diet = $4 WHERE
id = $1` on one row: a matching row gets the three bound mutable columns,
any other row is untouched. -/
def applyUpdate (u : Uuid) (d : Dino) (r : Dino) : Dino :=
  if r.id == some u then { r with name := d.name, weight := d.weight, diet := d.diet }
  else r

/-- The update statement with `returning id, name, weight, diet` and
`fetch_optional`: the new table, and the first updated row if any row
matched. -/
def sqlUpdate (t : Table) (u : Uuid) (d : Dino) : Table × Option Dino :=
  (t.map (applyUpdate u d),
   ((t.filter (fun r => r.id == some u)).head?).map (applyUpdate u d))

/-- `DELETE FROM dinos WHERE id = $1 returning id` with `fetch_optional`:
the table without the matching rows, and the first deleted row if any row
matched (the source only consumes the presence of the returned row). -/
def sqlDelete (t : Table) (u : Uuid) : Table × Option Dino :=
  (t.filter (fun r => !(r.id == some u)),
   (t.filter (fun r => r.id == some u)).head?)

/-- The backend as the Rust code sees it through the connection pool: the
table, plus whether the connection is serviceable.  When `avail` is false
every statement execution returns the driver's I/O failure. -/
structure Db where
  avail : Bool
  table : Table
deriving DecidableEq, Repr

/-- `fetch_one` of the insert statement against the pool. -/
def dbInsert (db : Db) (d : Dino) : Except DbError (Db × Dino) :=
  if db.avail then
    match sqlInsert db.table d with
    | .error e => .error e
    | .ok (t, row) => .ok ({ db with table := t }, row)
  else .error .unavailable

/-- `fetch_all` of the select-all statement against the pool. -/
def dbSelectAll (db : Db) : Except DbError (List Dino) :=
  if db.avail then .ok (sqlSelectAll db.table) else .error .unavailable

/-- `fetch_optional` of the select-by-id statement against the pool. -/
def dbSelectById (db : Db) (u : Uuid) : Except DbError (Option Dino) :=
  if db.avail then .ok (sqlSelectById db.table u) else .error .unavailable

/-- `fetch_optional` of the update statement against the pool. -/
def dbUpdate (db : Db) (u : Uuid) (d : Dino) : Except DbError (Db × Option Dino) :=
  if db.avail then
    let p := sqlUpdate db.table u d
    .ok ({ db with table := p.1 }, p.2)
  else .error .unavailable

/-- `fetch_optional` of the delete statement against the pool. -/
def dbDelete (db : Db) (u : Uuid) : Except DbError (Db × Option Dino) :=
  if db.avail then
    let p := sqlDelete db.table u
    .ok ({ db with table := p.1 }, p.2)
  else .error .unavailable

/-- A `tide::Error` as far as the handlers shape it: the HTTP status it
carries and the wrapped driver error. -/
structure TideErr where
  status : Nat
  source : DbError
deriving DecidableEq, Repr

/-- tide's blanket `From` conversion applied by the `?` operator in the
`RestEntity` handlers: the driver error is wrapped with status 500
(Internal Server Error). -/
def tideFrom (e : DbError) : TideErr := ⟨500, e⟩

namespace Handlers.Dino

/-- `handlers/dino.rs` `create`: run the insert, mapping any driver error
to a status-409 tide error; on success return the stored row. -/
def create (dino : Dino) (db : Db) : Except TideErr Dino × Db :=
  match dbInsert db dino with
  | .error e => (.error ⟨409, e⟩, db)
  | .ok (db2, row) => (.ok row, db2)

/-- `handlers/dino.rs` `list`: run the select-all, mapping any driver
error to a status-409 tide error. -/
def list (db : Db) : Except TideErr (List Dino) × Db :=
  match dbSelectAll db with
  | .error e => (.error ⟨409, e⟩, db)
  | .ok rows => (.ok rows, db)

/-- `handlers/dino.rs` `get`: run the select-by-id, mapping any driver
error to a status-409 tide error; a missing row is `Ok(None)`. -/
def get (id : Uuid) (db : Db) : Except TideErr (Option Dino) × Db :=
  match dbSelectById db id with
  | .error e => (.error ⟨409, e⟩, db)
  | .ok row => (.ok row, db)

/-- `handlers/dino.rs` `update`: run the update statement, mapping any
driver error to a status-409 tide error; zero affected rows is `Ok(None)`. -/
def update (id : Uuid) (dino : Dino) (db : Db) : Except TideErr (Option Dino) × Db :=
  match dbUpdate db id dino with
  | .error e => (.error ⟨409, e⟩, db)
  | .ok (db2, row) => (.ok row, db2)

/-- `handlers/dino.rs` `delete`: run the delete statement, mapping any
driver error to a status-409 tide error; the returned row is collapsed to
`Some(())` / `None`. -/
def delete (id : Uuid) (db : Db) : Except TideErr (Option Unit) × Db :=
  match dbDelete db id with
  | .error e => (.error ⟨409, e⟩, db)
  | .ok (db2, row) =>
      match row with
      | none => (.ok none, db2)
      | some _ => (.ok (some ()), db2)

end Handlers.Dino

/-- Body of a `tide::Response` as built by the `RestEntity` handlers. -/
inductive RBody where
  | empty
  | one (d : Dino)
  | many (l : List Dino)
deriving DecidableEq, Repr

/-- A `tide::Response` as far as the `RestEntity` handlers shape it. -/
structure Response where
  status : Nat
  body : RBody
deriving DecidableEq, Repr

/-- Outcome of a handler whose body may panic (`unwrap` on a failed uuid
parse): either the panic, or the handler's `tide::Result`. -/
inductive HandlerOutcome (α : Type) where
  | panicked
  | result (r : α)
deriving DecidableEq, Repr

namespace RestEntity

/-- `RestEntity::create` (main.rs): insert the decoded body; a driver
error propagates through `?` (status 500); on success respond 201 with the
stored row as body. -/
def create (dino : Dino) (db : Db) : Except TideErr Response × Db :=
  match dbInsert db dino with
  | .error e => (.error (tideFrom e), db)
  | .ok (db2, row) => (.ok ⟨201, .one row⟩, db2)

/-- `RestEntity::list` (main.rs): select all rows; a driver error
propagates through `?`; on success respond 200 with the rows as body. -/
def list (db : Db) : Except TideErr Response × Db :=
  match dbSelectAll db with
  | .error e => (.error (tideFrom e), db)
  | .ok rows => (.ok ⟨200, .many rows⟩, db)

/-- `RestEntity::get` after the id has been parsed: select by id; `None`
becomes a 404 response, `Some(row)` a 200 response with the row as body. -/
def getU (u : Uuid) (db : Db) : Except TideErr Response × Db :=
  match dbSelectById db u with
  | .error e => (.error (tideFrom e), db)
  | .ok none => (.ok ⟨404, .empty⟩, db)
  | .ok (some row) => (.ok ⟨200, .one row⟩, db)

/-- `RestEntity::get` (main.rs): `Uuid::parse_str(req.param("id")?).unwrap()`
panics on a parse failure before any database access; otherwise proceed
with the parsed id. -/
def get (idStr : String) (db : Db) : HandlerOutcome (Except TideErr Response × Db) :=
  match Uuid.parseStr idStr with
  | none => .panicked
  | some u => .result (getU u db)

/-- `RestEntity::update` after the body has been decoded and the id
parsed: run the update statement; zero affected rows becomes a 404
response, an updated row a 200 response with the row as body. -/
def updateU (u : Uuid) (dino : Dino) (db : Db) : Except TideErr Response × Db :=
  match dbUpdate db u dino with
  | .error e => (.error (tideFrom e), db)
  | .ok (db2, none) => (.ok ⟨404, .empty⟩, db2)
  | .ok (db2, some row) => (.ok ⟨200, .one row⟩, db2)

/-- `RestEntity::update` (main.rs): decodes the body (taken here already
decoded), then `unwrap`s the uuid parse — panicking on a parse failure
before any database access. -/
def update (idStr : String) (dino : Dino) (db : Db) :
    HandlerOutcome (Except TideErr Response × Db) :=
  match Uuid.parseStr idStr with
  | none => .panicked
  | some u => .result (updateU u dino db)

/-- `RestEntity::delete` after the id has been parsed: run the delete
statement; no returned row becomes a 404 response, a returned row a bare
204 response. -/
def deleteU (u : Uuid) (db : Db) : Except TideErr Response × Db :=
  match dbDelete db u with
  | .error e => (.error (tideFrom e), db)
  | .ok (db2, none) => (.ok ⟨404, .empty⟩, db2)
  | .ok (db2, some _) => (.ok ⟨204, .empty⟩, db2)

/-- `RestEntity::delete` (main.rs): `unwrap`s the uuid parse — panicking
on a parse failure before any database access. -/
def delete (idStr : String) (db : Db) : HandlerOutcome (Except TideErr Response × Db) :=
  match Uuid.parseStr idStr with
  | none => .panicked
  | some u => .result (deleteU u db)

end RestEntity

/-! Concrete values used by closed witnesses and counterexamples. -/

/-- A stored dino with id 1. -/
def rex : Dino := { id := some 1, name := "rex", weight := 500, diet := "carnivorous" }

/-- A second dino carrying the same id 1 (conflicting create payload). -/
def blue : Dino := { id := some 1, name := "blue", weight := 40, diet := "omnivorous" }

/-- A dino with id 2, distinct from `rex`. -/
def trice : Dino := { id := some 2, name := "triceratops", weight := 900, diet := "herbivorous" }

/-- A dino with id 3, a frame row untouched by updates aimed at id 1. -/
def ptero : Dino := { id := some 3, name := "pterodactyl", weight := 70, diet := "piscivorous" }

/-- A create payload carrying no id at all. -/
def rexNoId : Dino := { id := none, name := "rex", weight := 500, diet := "carnivorous" }

/-- An update payload (its id field is ignored by the update statement). -/
def newVals : Dino := { id := none, name := "updated", weight := 60, diet := "herbivorous" }

/-- The all-zero uuid in the simple 32-hex form. -/
def zeros32 : String := "00000000000000000000000000000000"

/-- A path parameter that is not a uuid in any accepted form. -/
def notAUuid : String := "abc"

/-! Helper lemmas about the SQL-level table operations. -/

theorem find?_id_eq_none {t : Table} {u : Uuid} (h : ∀ r ∈ t, r.id ≠ some u) :
    t.find? (fun r => r.id == some u) = none := by
  rw [List.find?_eq_none]
  intro x hx
  simpa using h x hx

theorem filter_id_eq_nil {t : Table} {u : Uuid} (h : ∀ r ∈ t, r.id ≠ some u) :
    t.filter (fun r => r.id == some u) = [] := by
  rw [List.filter_eq_nil_iff]
  intro x hx
  simpa using h x hx

theorem filter_id_ne_eq_self {t : Table} {u : Uuid} (h : ∀ r ∈ t, r.id ≠ some u) :
    t.filter (fun r => !(r.id == some u)) = t := by
  rw [List.filter_eq_self]
  intro x hx
  simpa using h x hx

theorem map_applyUpdate_eq_self {t : Table} {u : Uuid} (d : Dino)
    (h : ∀ r ∈ t, r.id ≠ some u) : t.map (applyUpdate u d) = t := by
  have hcongr : t.map (applyUpdate u d) = t.map id :=
    List.map_congr_left (fun a ha => by simp [applyUpdate, h a ha])
  simpa using hcongr

theorem mem_filter_id_ne {t : Table} {u : Uuid} :
    ∀ x ∈ t.filter (fun r => !(r.id == some u)), x.id ≠ some u := by
  intro x hx
  have hx2 := (List.mem_filter.mp hx).2
  simpa using hx2

/-! Helper lemmas: each operation on an id that denotes no live row, with
the backend available. -/

theorem getU_absent {t : Table} {u : Uuid} (h : ∀ r ∈ t, r.id ≠ some u) :
    RestEntity.getU u ⟨true, t⟩ = (.ok ⟨404, .empty⟩, ⟨true, t⟩) := by
  simp [RestEntity.getU, dbSelectById, sqlSelectById, find?_id_eq_none h]

theorem get_hd_absent {t : Table} {u : Uuid} (h : ∀ r ∈ t, r.id ≠ some u) :
    Handlers.Dino.get u ⟨true, t⟩ = (.ok none, ⟨true, t⟩) := by
  simp [Handlers.Dino.get, dbSelectById, sqlSelectById, find?_id_eq_none h]

theorem updateU_absent {t : Table} {u : Uuid} (d : Dino) (h : ∀ r ∈ t, r.id ≠ some u) :
    RestEntity.updateU u d ⟨true, t⟩ = (.ok ⟨404, .empty⟩, ⟨true, t⟩) := by
  simp [RestEntity.updateU, dbUpdate, sqlUpdate, map_applyUpdate_eq_self d h,
    filter_id_eq_nil h]

theorem update_hd_absent {t : Table} {u : Uuid} (d : Dino) (h : ∀ r ∈ t, r.id ≠ some u) :
    Handlers.Dino.update u d ⟨true, t⟩ = (.ok none, ⟨true, t⟩) := by
  simp [Handlers.Dino.update, dbUpdate, sqlUpdate, map_applyUpdate_eq_self d h,
    filter_id_eq_nil h]

theorem deleteU_absent {t : Table} {u : Uuid} (h : ∀ r ∈ t, r.id ≠ some u) :
    RestEntity.deleteU u ⟨true, t⟩ = (.ok ⟨404, .empty⟩, ⟨true, t⟩) := by
  simp [RestEntity.deleteU, dbDelete, sqlDelete, filter_id_eq_nil h,
    filter_id_ne_eq_self h]

theorem delete_hd_absent {t : Table} {u : Uuid} (h : ∀ r ∈ t, r.id ≠ some u) :
    Handlers.Dino.delete u ⟨true, t⟩ = (.ok none, ⟨true, t⟩) := by
  simp [Handlers.Dino.delete, dbDelete, sqlDelete, filter_id_eq_nil h,
    filter_id_ne_eq_self h]

/-- Claim C1, counterexample: a create whose id already denotes the live row
`rex`, sent through the `RestEntity::create` path of main.rs, fails with a
status-500 error (tide's `?` conversion), not with the 409 Conflict status —
so the 409 mapping does not hold on every code path that implements create. -/
theorem create_duplicate_rest_path_is_500 :
    RestEntity.create blue ⟨true, [rex]⟩ =
      (.error ⟨500, .uniqueViolation⟩, ⟨true, [rex]⟩) ∧
    (500 : Nat) ≠ 409 :=
  ⟨rfl, by decide⟩

/-- Claim C1 (amended): a create whose entity's id already denotes a live
row never succeeds and never overwrites — the store is unchanged on both
code paths — and the failure is a unique-constraint violation; the
`handlers/dino.rs` path surfaces it with status 409, while the
`RestEntity` path surfaces it with the generic status 500. -/
theorem create_duplicate_rejected_status_by_path (d : Dino) (u : Uuid) (db : Db)
    (ha : db.avail = true) (hid : d.id = some u)
    (hdup : ∃ r ∈ db.table, r.id = some u) :
    Handlers.Dino.create d db = (.error ⟨409, .uniqueViolation⟩, db) ∧
    RestEntity.create d db = (.error ⟨500, .uniqueViolation⟩, db) := by
  have hany : db.table.any (fun r => r.id == some u) = true := by
    rw [List.any_eq_true]
    obtain ⟨r, hr, h⟩ := hdup
    exact ⟨r, hr, by simpa using h⟩
  constructor <;>
    simp [Handlers.Dino.create, RestEntity.create, dbInsert, sqlInsert, ha, hid, hany,
      tideFrom]

/-- Claim C1, witness for the amended theorem at a concrete duplicate. -/
theorem create_duplicate_rejected_status_by_path_witness :
    Handlers.Dino.create blue ⟨true, [rex]⟩ =
      (.error ⟨409, .uniqueViolation⟩, ⟨true, [rex]⟩) ∧
    RestEntity.create blue ⟨true, [rex]⟩ =
      (.error ⟨500, .uniqueViolation⟩, ⟨true, [rex]⟩) :=
  create_duplicate_rejected_status_by_path blue 1 ⟨true, [rex]⟩ rfl rfl
    ⟨rex, List.mem_cons_self rex [], rfl⟩

/-- Claim C2, counterexample: a backend I/O failure during `list` is
surfaced by `handlers/dino.rs` with status 409 — exactly the status that a
duplicate-identifier create produces — so an I/O failure is not
distinguishable from Conflict, and 409 is produced for an operation other
than create. -/
theorem io_failure_list_surfaced_as_conflict_status :
    Handlers.Dino.list ⟨false, [rex]⟩ =
      (.error ⟨409, .unavailable⟩, ⟨false, [rex]⟩) ∧
    Handlers.Dino.create blue ⟨true, [rex]⟩ =
      (.error ⟨409, .uniqueViolation⟩, ⟨true, [rex]⟩) :=
  ⟨rfl, rfl⟩

/-- Claim C2 (amended): when the backend is unavailable, every
`handlers/dino.rs` operation fails with the same status 409 that is used
for create conflicts (only the wrapped driver error differs), and every
`RestEntity` operation fails with status 500; no distinct Unavailable
status exists. -/
theorem all_failures_uniform_status (db : Db) (d : Dino) (u : Uuid)
    (hu : db.avail = false) :
    Handlers.Dino.create d db = (.error ⟨409, .unavailable⟩, db) ∧
    Handlers.Dino.list db = (.error ⟨409, .unavailable⟩, db) ∧
    Handlers.Dino.get u db = (.error ⟨409, .unavailable⟩, db) ∧
    Handlers.Dino.update u d db = (.error ⟨409, .unavailable⟩, db) ∧
    Handlers.Dino.delete u db = (.error ⟨409, .unavailable⟩, db) ∧
    RestEntity.create d db = (.error ⟨500, .unavailable⟩, db) ∧
    RestEntity.list db = (.error ⟨500, .unavailable⟩, db) ∧
    RestEntity.getU u db = (.error ⟨500, .unavailable⟩, db) ∧
    RestEntity.updateU u d db = (.error ⟨500, .unavailable⟩, db) ∧
    RestEntity.deleteU u db = (.error ⟨500, .unavailable⟩, db) := by
  refine ⟨?_, ?_, ?_, ?_, ?_, ?_, ?_, ?_, ?_, ?_⟩ <;>
    simp [Handlers.Dino.create, Handlers.Dino.list, Handlers.Dino.get,
      Handlers.Dino.update, Handlers.Dino.delete, RestEntity.create, RestEntity.list,
      RestEntity.getU, RestEntity.updateU, RestEntity.deleteU, dbInsert, dbSelectAll,
      dbSelectById, dbUpdate, dbDelete, hu, tideFrom]

/-- Claim C2, witness for the amended theorem on a concrete unavailable
backend. -/
theorem all_failures_uniform_status_witness :
    Handlers.Dino.create blue ⟨false, [rex]⟩ =
      (.error ⟨409, .unavailable⟩, ⟨false, [rex]⟩) ∧
    Handlers.Dino.list ⟨false, [rex]⟩ = (.error ⟨409, .unavailable⟩, ⟨false, [rex]⟩) ∧
    Handlers.Dino.get 1 ⟨false, [rex]⟩ = (.error ⟨409, .unavailable⟩, ⟨false, [rex]⟩) ∧
    Handlers.Dino.update 1 blue ⟨false, [rex]⟩ =
      (.error ⟨409, .unavailable⟩, ⟨false, [rex]⟩) ∧
    Handlers.Dino.delete 1 ⟨false, [rex]⟩ =
      (.error ⟨409, .unavailable⟩, ⟨false, [rex]⟩) ∧
    RestEntity.create blue ⟨false, [rex]⟩ =
      (.error ⟨500, .unavailable⟩, ⟨false, [rex]⟩) ∧
    RestEntity.list ⟨false, [rex]⟩ = (.error ⟨500, .unavailable⟩, ⟨false, [rex]⟩) ∧
    RestEntity.getU 1 ⟨false, [rex]⟩ = (.error ⟨500, .unavailable⟩, ⟨false, [rex]⟩) ∧
    RestEntity.updateU 1 blue ⟨false, [rex]⟩ =
      (.error ⟨500, .unavailable⟩, ⟨false, [rex]⟩) ∧
    RestEntity.deleteU 1 ⟨false, [rex]⟩ =
      (.error ⟨500, .unavailable⟩, ⟨false, [rex]⟩) :=
  all_failures_uniform_status ⟨false, [rex]⟩ blue 1 rfl

/-- Claim C3: with the backend available and a well-formed uuid path
parameter, `get`, `update` and `delete` on an identifier denoting no live
row all return the absence marker — `Ok(None)` from `handlers/dino.rs`, a
bare 404 response from the `RestEntity` handlers — never an error, and
the store is unchanged. -/
theorem absent_id_absence_marker (u : Uuid) (s : String) (d : Dino) (db : Db)
    (ha : db.avail = true) (hs : Uuid.parseStr s = some u)
    (habs : ∀ r ∈ db.table, r.id ≠ some u) :
    Handlers.Dino.get u db = (.ok none, db) ∧
    Handlers.Dino.update u d db = (.ok none, db) ∧
    Handlers.Dino.delete u db = (.ok none, db) ∧
    RestEntity.get s db = .result (.ok ⟨404, .empty⟩, db) ∧
    RestEntity.update s d db = .result (.ok ⟨404, .empty⟩, db) ∧
    RestEntity.delete s db = .result (.ok ⟨404, .empty⟩, db) := by
  obtain ⟨a, t⟩ := db
  have ha2 : a = true := ha
  subst ha2
  refine ⟨get_hd_absent habs, update_hd_absent d habs, delete_hd_absent habs, ?_, ?_, ?_⟩ <;>
    simp [RestEntity.get, RestEntity.update, RestEntity.delete, hs,
      getU_absent habs, updateU_absent d habs, deleteU_absent habs]

/-- Claim C3, witness: id 0 (path parameter of 32 zeros) denotes no live
row in a store holding only `rex`. -/
theorem absent_id_absence_marker_witness :
    Handlers.Dino.get 0 ⟨true, [rex]⟩ = (.ok none, ⟨true, [rex]⟩) ∧
    Handlers.Dino.update 0 newVals ⟨true, [rex]⟩ = (.ok none, ⟨true, [rex]⟩) ∧
    Handlers.Dino.delete 0 ⟨true, [rex]⟩ = (.ok none, ⟨true, [rex]⟩) ∧
    RestEntity.get zeros32 ⟨true, [rex]⟩ =
      .result (.ok ⟨404, .empty⟩, ⟨true, [rex]⟩) ∧
    RestEntity.update zeros32 newVals ⟨true, [rex]⟩ =
      .result (.ok ⟨404, .empty⟩, ⟨true, [rex]⟩) ∧
    RestEntity.delete zeros32 ⟨true, [rex]⟩ =
      .result (.ok ⟨404, .empty⟩, ⟨true, [rex]⟩) :=
  absent_id_absence_marker 0 zeros32 newVals ⟨true, [rex]⟩ rfl (by decide) (by decide)

/-- Claim C4: an update aimed at an identifier denoting no live row
returns the absence marker and creates nothing — the table afterwards is
the table before, on both layers (no upsert). -/
theorem update_absent_no_upsert (u : Uuid) (d : Dino) (db : Db)
    (ha : db.avail = true) (habs : ∀ r ∈ db.table, r.id ≠ some u) :
    Handlers.Dino.update u d db = (.ok none, db) ∧
    RestEntity.updateU u d db = (.ok ⟨404, .empty⟩, db) := by
  obtain ⟨a, t⟩ := db
  have ha2 : a = true := ha
  subst ha2
  exact ⟨update_hd_absent d habs, updateU_absent d habs⟩

/-- Claim C4, witness: updating unknown id 3 over a two-row store. -/
theorem update_absent_no_upsert_witness :
    Handlers.Dino.update 3 newVals ⟨true, [rex, trice]⟩ =
      (.ok none, ⟨true, [rex, trice]⟩) ∧
    RestEntity.updateU 3 newVals ⟨true, [rex, trice]⟩ =
      (.ok ⟨404, .empty⟩, ⟨true, [rex, trice]⟩) :=
  update_absent_no_upsert 3 newVals ⟨true, [rex, trice]⟩ rfl (by decide)

/-- Claim C5: deleting a live identifier twice with no interleaving
operation: the first call removes the rows with that id and returns the
presence marker (204 from `RestEntity`, `Some(())` from
`handlers/dino.rs`), the second returns the absence marker (404 /
`None`); neither call is an error. -/
theorem delete_twice_presence_then_absence (u : Uuid) (db : Db) (r : Dino)
    (ha : db.avail = true) (hr : r ∈ db.table) (hid : r.id = some u) :
    RestEntity.deleteU u db =
      (.ok ⟨204, .empty⟩, ⟨true, db.table.filter (fun x => !(x.id == some u))⟩) ∧
    RestEntity.deleteU u ⟨true, db.table.filter (fun x => !(x.id == some u))⟩ =
      (.ok ⟨404, .empty⟩, ⟨true, db.table.filter (fun x => !(x.id == some u))⟩) ∧
    Handlers.Dino.delete u db =
      (.ok (some ()), ⟨true, db.table.filter (fun x => !(x.id == some u))⟩) ∧
    Handlers.Dino.delete u ⟨true, db.table.filter (fun x => !(x.id == some u))⟩ =
      (.ok none, ⟨true, db.table.filter (fun x => !(x.id == some u))⟩) := by
  obtain ⟨a, t⟩ := db
  have ha2 : a = true := ha
  subst ha2
  have hmem : r ∈ t.filter (fun x => x.id == some u) :=
    List.mem_filter.mpr ⟨hr, by simpa using hid⟩
  obtain ⟨w, hw⟩ : ∃ w, (t.filter (fun x => x.id == some u)).head? = some w := by
    cases hft : t.filter (fun x => x.id == some u) with
    | nil => rw [hft] at hmem; cases hmem
    | cons w ws => exact ⟨w, by simp [hft]⟩
  refine ⟨?_, deleteU_absent mem_filter_id_ne, ?_, delete_hd_absent mem_filter_id_ne⟩
  · simp [RestEntity.deleteU, dbDelete, sqlDelete, hw]
  · simp [Handlers.Dino.delete, dbDelete, sqlDelete, hw]

/-- Claim C5, witness: deleting id 1 twice over the store `[rex, trice]`. -/
theorem delete_twice_presence_then_absence_witness :
    RestEntity.deleteU 1 ⟨true, [rex, trice]⟩ =
      (.ok ⟨204, .empty⟩, ⟨true, [trice]⟩) ∧
    RestEntity.deleteU 1 ⟨true, [trice]⟩ = (.ok ⟨404, .empty⟩, ⟨true, [trice]⟩) ∧
    Handlers.Dino.delete 1 ⟨true, [rex, trice]⟩ = (.ok (some ()), ⟨true, [trice]⟩) ∧
    Handlers.Dino.delete 1 ⟨true, [trice]⟩ = (.ok none, ⟨true, [trice]⟩) :=
  delete_twice_presence_then_absence 1 ⟨true, [rex, trice]⟩ rex rfl
    (List.mem_cons_self rex [trice]) rfl

/-- Claim C6: after a successful create of an entity carrying id `u`
(no live row had that id), a get on `u` against the resulting store, with
no interleaving mutation, returns exactly the stored entity — a 200
response with the entity as body on the `RestEntity` layer, `Ok(Some(e))`
on the `handlers/dino.rs` layer. -/
theorem create_then_get_reads_back (e : Dino) (u : Uuid) (db : Db)
    (ha : db.avail = true) (hid : e.id = some u)
    (hfresh : ∀ r ∈ db.table, r.id ≠ some u) :
    RestEntity.create e db = (.ok ⟨201, .one e⟩, ⟨true, db.table ++ [e]⟩) ∧
    RestEntity.getU u ⟨true, db.table ++ [e]⟩ =
      (.ok ⟨200, .one e⟩, ⟨true, db.table ++ [e]⟩) ∧
    Handlers.Dino.get u ⟨true, db.table ++ [e]⟩ =
      (.ok (some e), ⟨true, db.table ++ [e]⟩) := by
  obtain ⟨a, t⟩ := db
  have ha2 : a = true := ha
  subst ha2
  have hnoany : t.any (fun r => r.id == some u) = false := by
    rw [List.any_eq_false]
    intro x hx
    simpa using hfresh x hx
  have hfind : (t ++ [e]).find? (fun r => r.id == some u) = some e := by
    rw [List.find?_append, find?_id_eq_none hfresh]
    have hsingle : (([e] : Table).find? (fun r => r.id == some u)) = some e :=
      List.find?_cons_of_pos _ (by simp [hid])
    simp [hsingle]
  refine ⟨?_, ?_, ?_⟩
  · simp [RestEntity.create, dbInsert, sqlInsert, hid, hnoany]
  · simp [RestEntity.getU, dbSelectById, sqlSelectById, hfind]
  · simp [Handlers.Dino.get, dbSelectById, sqlSelectById, hfind]

/-- Claim C6, witness: creating `trice` over a store holding `rex`, then
reading id 2 back. -/
theorem create_then_get_reads_back_witness :
    RestEntity.create trice ⟨true, [rex]⟩ =
      (.ok ⟨201, .one trice⟩, ⟨true, [rex, trice]⟩) ∧
    RestEntity.getU 2 ⟨true, [rex, trice]⟩ =
      (.ok ⟨200, .one trice⟩, ⟨true, [rex, trice]⟩) ∧
    Handlers.Dino.get 2 ⟨true, [rex, trice]⟩ = (.ok (some trice), ⟨true, [rex, trice]⟩) :=
  create_then_get_reads_back trice 2 ⟨true, [rex]⟩ rfl rfl (by decide)

/-- Claim C7: a successful update of the live row `r0` (its id `u` unique
in the store) replaces exactly the three mutable columns of `r0` with the
payload's, keeps `r0`'s identifier, and leaves every other row of the
store untouched; the updated row is what both layers return. -/
theorem update_replaces_mutable_fields_only (u : Uuid) (d r0 : Dino)
    (t1 t2 : Table) (db : Db)
    (ha : db.avail = true) (htab : db.table = t1 ++ r0 :: t2)
    (hid : r0.id = some u) (hothers : ∀ r ∈ t1 ++ t2, r.id ≠ some u) :
    Handlers.Dino.update u d db =
      (.ok (some { r0 with name := d.name, weight := d.weight, diet := d.diet }),
       ⟨true, t1 ++ { r0 with name := d.name, weight := d.weight, diet := d.diet } :: t2⟩) ∧
    RestEntity.updateU u d db =
      (.ok ⟨200, .one { r0 with name := d.name, weight := d.weight, diet := d.diet }⟩,
       ⟨true, t1 ++ { r0 with name := d.name, weight := d.weight, diet := d.diet } :: t2⟩) := by
  obtain ⟨a, t⟩ := db
  have ha2 : a = true := ha
  subst ha2
  have ht : t = t1 ++ r0 :: t2 := htab
  subst ht
  have h1 : ∀ r ∈ t1, r.id ≠ some u := fun r hr => hothers r (List.mem_append_left _ hr)
  have h2 : ∀ r ∈ t2, r.id ≠ some u := fun r hr => hothers r (List.mem_append_right _ hr)
  have hpos : (r0.id == some u) = true := by simp [hid]
  have hr0 : applyUpdate u d r0 =
      { r0 with name := d.name, weight := d.weight, diet := d.diet } := by
    simp [applyUpdate, hpos]
  have hmap : (t1 ++ r0 :: t2).map (applyUpdate u d) =
      t1 ++ { r0 with name := d.name, weight := d.weight, diet := d.diet } :: t2 := by
    rw [List.map_append, map_applyUpdate_eq_self d h1, List.map_cons,
      map_applyUpdate_eq_self d h2, hr0]
  have hfilt : (t1 ++ r0 :: t2).filter (fun x => x.id == some u) =
      r0 :: t2.filter (fun x => x.id == some u) := by
    rw [List.filter_append, filter_id_eq_nil h1, List.nil_append]
    exact @List.filter_cons_of_pos Dino (fun x => x.id == some u) r0 t2 hpos
  refine ⟨?_, ?_⟩ <;>
    simp [Handlers.Dino.update, RestEntity.updateU, dbUpdate, sqlUpdate, hmap, hfilt, hr0]

/-- Claim C7, witness: updating id 1 in the store `[trice, rex, ptero]`
rewrites only `rex`'s mutable columns and leaves `trice` and `ptero`
untouched. -/
theorem update_replaces_mutable_fields_only_witness :
    Handlers.Dino.update 1 newVals ⟨true, [trice, rex, ptero]⟩ =
      (.ok (some { id := some 1, name := "updated", weight := 60, diet := "herbivorous" }),
       ⟨true,
        [trice, { id := some 1, name := "updated", weight := 60, diet := "herbivorous" },
         ptero]⟩) ∧
    RestEntity.updateU 1 newVals ⟨true, [trice, rex, ptero]⟩ =
      (.ok ⟨200, .one { id := some 1, name := "updated", weight := 60, diet := "herbivorous" }⟩,
       ⟨true,
        [trice, { id := some 1, name := "updated", weight := 60, diet := "herbivorous" },
         ptero]⟩) :=
  update_replaces_mutable_fields_only 1 newVals rex [trice] [ptero]
    ⟨true, [trice, rex, ptero]⟩ rfl rfl rfl (by decide)

/-- Claim C8 (code-bug evidence): a create whose payload carries no id
succeeds and returns the stored row with an absent id on both layers —
the source's INSERT explicitly binds the payload's id, so a NULL is
stored as NULL and no backend-generated identifier can appear in the
returned row. -/
theorem create_without_id_returns_absent_id :
    RestEntity.create rexNoId ⟨true, []⟩ =
      (.ok ⟨201, .one rexNoId⟩, ⟨true, [rexNoId]⟩) ∧
    Handlers.Dino.create rexNoId ⟨true, []⟩ = (.ok rexNoId, ⟨true, [rexNoId]⟩) ∧
    rexNoId.id = none :=
  ⟨rfl, rfl, rfl⟩

/-- Claim C9: with the backend available, list never fails on any store
contents: `handlers/dino.rs` returns exactly the live rows (possibly the
empty sequence), and the `RestEntity` handler maps every such outcome to a
200 response carrying the rows, leaving the store unchanged. -/
theorem list_returns_all_live (db : Db) (ha : db.avail = true) :
    Handlers.Dino.list db = (.ok db.table, db) ∧
    RestEntity.list db = (.ok ⟨200, .many db.table⟩, db) := by
  obtain ⟨a, t⟩ := db
  have ha2 : a = true := ha
  subst ha2
  exact ⟨rfl, rfl⟩

/-- Claim C9, witness: the empty store (empty sequence, status 200) and a
one-row store. -/
theorem list_returns_all_live_witness :
    (Handlers.Dino.list ⟨true, []⟩ = (.ok [], ⟨true, []⟩) ∧
      RestEntity.list ⟨true, []⟩ = (.ok ⟨200, .many []⟩, ⟨true, []⟩)) ∧
    (Handlers.Dino.list ⟨true, [rex]⟩ = (.ok [rex], ⟨true, [rex]⟩) ∧
      RestEntity.list ⟨true, [rex]⟩ = (.ok ⟨200, .many [rex]⟩, ⟨true, [rex]⟩)) :=
  ⟨list_returns_all_live ⟨true, []⟩ rfl, list_returns_all_live ⟨true, [rex]⟩ rfl⟩

/-- Claim C10: when the id path parameter does not parse as a uuid, the
`RestEntity` get, update and delete handlers panic (`unwrap` on the parse
result) before reaching the database — they return no response at all,
not even the absence marker. -/
theorem invalid_uuid_param_panics (s : String) (d : Dino) (db : Db)
    (hs : Uuid.parseStr s = none) :
    RestEntity.get s db = .panicked ∧
    RestEntity.update s d db = .panicked ∧
    RestEntity.delete s db = .panicked := by
  refine ⟨?_, ?_, ?_⟩ <;> simp [RestEntity.get, RestEntity.update, RestEntity.delete, hs]

/-- Claim C10, witness: the path parameter `abc` is not a uuid, and all
three handlers panic on it. -/
theorem invalid_uuid_param_panics_witness :
    RestEntity.get notAUuid ⟨true, [rex]⟩ = .panicked ∧
    RestEntity.update notAUuid newVals ⟨true, [rex]⟩ = .panicked ∧
    RestEntity.delete notAUuid ⟨true, [rex]⟩ = .panicked :=
  invalid_uuid_param_panics notAUuid newVals ⟨true, [rex]⟩ (by decide)
